import Mathlib

/-!
Shallow embedding of `mlcheck.py` (XML-HTML-Checker), the structural
markup validator: the tag classifier tables, the stack-based structural
validator (`MyHTMLParser.handle_starttag` / `handle_endtag` / `error`),
the end-of-input unclosed-tag accounting of `validate_file`, the Moodle
multichoice schema checker `validate_moodle_mc`, the XML branch of
`validate_file`, and the format sniffer `detect_format`.

Conventions: the Python list `tags_stack` is modelled as a Lean list with
the same orientation (push = append at the tail, top = last element), so
`tags_stack[-1]` becomes `List.getLast?`, `pop()` becomes `List.dropLast`
and `reversed(tags_stack)` becomes `List.reverse`.  Diagnostics are
`(position, message)` pairs exactly as in the source; positions from
`getpos()` are `(line, column)` pairs.
-/

namespace Mlcheck

/-- Position `(line, column)` as reported by `HTMLParser.getpos()`. -/
structure Pos where
  line : Nat
  col : Nat
deriving DecidableEq, Repr

/-- The fixed table `HTML_VOID_ELEMENTS` of the source. -/
def HTML_VOID_ELEMENTS : List String :=
  ["area", "base", "br", "col", "embed", "hr", "img", "input",
   "link", "meta", "param", "source", "track", "wbr"]

/-- The fixed table `raw_context_tags` of `MyHTMLParser.__init__`. -/
def raw_context_tags : List String := ["pre", "code", "script", "style"]

/-- One event of the tokenizer collaborator, in document order. -/
inductive TagEvent where
  | Open (name : String) (pos : Pos)
  | Close (name : String) (pos : Pos)
  | LexError (msg : String) (pos : Pos)
deriving DecidableEq, Repr

/-- The mutable state of `MyHTMLParser`. -/
structure ParserState where
  tags_stack : List String
  errors : List (Pos × String)
  tags_count : Nat
  is_in_raw_context : Bool
deriving DecidableEq, Repr

/-- State set up by `MyHTMLParser.__init__`. -/
def initState : ParserState :=
  { tags_stack := [], errors := [], tags_count := 0, is_in_raw_context := false }

/-- Embedding of `MyHTMLParser.handle_starttag`. -/
def handle_starttag (s : ParserState) (tag : String) : ParserState :=
  let s1 := { s with tags_count := s.tags_count + 1 }
  if s1.is_in_raw_context then
    s1
  else
    let s2 := if tag ∈ raw_context_tags then { s1 with is_in_raw_context := true } else s1
    if tag ∉ HTML_VOID_ELEMENTS then
      { s2 with tags_stack := s2.tags_stack ++ [tag] }
    else
      s2

/-- Embedding of `MyHTMLParser.handle_endtag`; `pos` is `getpos()`. -/
def handle_endtag (s : ParserState) (tag : String) (pos : Pos) : ParserState :=
  if s.is_in_raw_context ∧ tag ∉ raw_context_tags then
    s
  else
    let s1 := if tag ∈ raw_context_tags then { s with is_in_raw_context := false } else s
    if tag ∈ HTML_VOID_ELEMENTS then
      { s1 with errors :=
          s1.errors ++ [(pos, "Superfluous closing tag for void element: </" ++ tag ++ ">")] }
    else
      match s1.tags_stack.getLast? with
      | none =>
          { s1 with errors :=
              s1.errors ++ [(pos, "Unmatched closing tag: " ++ tag ++ " (stack is empty)")] }
      | some expected_tag =>
          if expected_tag = tag then
            { s1 with tags_stack := s1.tags_stack.dropLast }
          else
            { s1 with errors :=
                s1.errors ++ [(pos, "Mismatched closing tag: expected </" ++ expected_tag ++
                                    "> but got </" ++ tag ++ ">")] }

/-- Embedding of `MyHTMLParser.error` (raw lexical errors). -/
def handle_error (s : ParserState) (message : String) (pos : Pos) : ParserState :=
  { s with errors := s.errors ++ [(pos, message)] }

/-- Dispatch one tokenizer event to the corresponding handler. -/
def step (s : ParserState) : TagEvent → ParserState
  | .Open name _pos => handle_starttag s name
  | .Close name pos => handle_endtag s name pos
  | .LexError msg pos => handle_error s msg pos

/-- Run the parser over an ordered event stream (`parser.feed`). -/
def feed (s : ParserState) (events : List TagEvent) : ParserState :=
  events.foldl step s

/-- The sentinel-positioned diagnostic appended for one unclosed tag. -/
def unclosedDiag (tag : String) : Pos × String :=
  (⟨0, 0⟩, "Unclosed tag: " ++ tag)

/-- End-of-input accounting of `validate_file` (HTML branch): append one
`Unclosed tag` diagnostic per remaining stack entry, iterating
`reversed(parser.tags_stack)`. -/
def finalErrors (s : ParserState) : List (Pos × String) :=
  s.errors ++ s.tags_stack.reverse.map unclosedDiag

/-- The HTML branch of `validate_file` as a pure function from the event
stream to the diagnostic list and the tag count. -/
def validate_html (events : List TagEvent) : List (Pos × String) × Nat :=
  let p := feed initState events
  (finalErrors p, p.tags_count)

/-- A parsed tree node, as exposed by the tree-parser collaborator
(stdlib `xml.etree.ElementTree.Element`): tag, attribute list and
ordered children.  The stdlib element type defines NO `sourceline`
attribute (that attribute exists only on lxml elements), so the node
carries no source position. -/
inductive TreeNode where
  | mk (tag : String) (attrs : List (String × String))
       (children : List TreeNode)
deriving Repr

/-- Tag of a node. -/
def TreeNode.tag : TreeNode → String
  | .mk t _ _ => t

/-- Attribute list of a node. -/
def TreeNode.attrs : TreeNode → List (String × String)
  | .mk _ a _ => a

/-- Ordered direct children of a node. -/
def TreeNode.children : TreeNode → List TreeNode
  | .mk _ _ c => c

/-- The exception message for the attribute access `q.sourceline` on a
stdlib ElementTree element. -/
def sourcelineAttributeError : String :=
  "AttributeError: Element object has no attribute sourceline"

/-- The attribute access `q.sourceline` performed by `validate_moodle_mc`:
on stdlib `xml.etree.ElementTree.Element` objects no such attribute
exists, so the access always raises `AttributeError`. -/
def TreeNode.sourceline (_q : TreeNode) : Except String Nat :=
  Except.error sourcelineAttributeError

mutual

/-- All proper descendants of a node, in document (preorder) order:
what the XPath axis `.//` of `findall` iterates over. -/
def descendants : TreeNode → List TreeNode
  | .mk _ _ children => descendantsOfAll children

/-- Preorder traversal of a forest: each root followed by its descendants. -/
def descendantsOfAll : List TreeNode → List TreeNode
  | [] => []
  | c :: cs => c :: (descendants c ++ descendantsOfAll cs)

end

/-- First value bound to `key` in an attribute list (ElementTree `attrib`). -/
def attrLookup (attrs : List (String × String)) (key : String) : Option String :=
  (attrs.find? (fun p => p.1 == key)).map (fun p => p.2)

/-- Test of the XPath filter `question[@type='multichoice']`. -/
def isMC (n : TreeNode) : Bool :=
  n.tag == "question" && attrLookup n.attrs "type" == some "multichoice"

/-- Embedding of `root.findall(".//question[@type='multichoice']")`. -/
def mcQuestions (root : TreeNode) : List TreeNode :=
  (descendants root).filter isMC

/-- Whether `q.find(k)` finds a direct child with tag `k` (`is not None`). -/
def hasDirectChild (q : TreeNode) (k : String) : Bool :=
  (q.children.find? (fun c => c.tag == k)).isSome

/-- The loop body of `validate_moodle_mc` for a single question node,
threading the shared `errors` list: each triggered
`errors.append((q.sourceline, msg))` evaluates the attribute access
`q.sourceline` first, which raises on stdlib elements, aborting the
whole checker. -/
def questionAppend (errs : List (Nat × String)) (q : TreeNode) :
    Except String (List (Nat × String)) := do
  let errs1 ←
    if hasDirectChild q "name" then pure errs
    else do
      let line ← q.sourceline
      pure (errs ++ [(line, "Missing <name> tag in multichoice question")])
  let errs2 ←
    if hasDirectChild q "questiontext" then pure errs1
    else do
      let line ← q.sourceline
      pure (errs1 ++ [(line, "Missing <questiontext> tag in multichoice question")])
  if (q.children.filter (fun c => c.tag == "answer")).isEmpty then do
    let line ← q.sourceline
    pure (errs2 ++ [(line, "No <answer> tags found in multichoice question")])
  else
    pure errs2

/-- Embedding of `validate_moodle_mc`: run the loop body over every
multichoice question found under `root`, accumulating in order; the
result is an exception as soon as any question triggers an append,
because the append evaluates the missing `sourceline` attribute. -/
def validate_moodle_mc (root : TreeNode) : Except String (List (Nat × String)) :=
  (mcQuestions root).foldlM questionAppend []

/-- Position of a diagnostic as it appears in the error list of the XML
branch: either a `(line, column)` pair from `ET.ParseError.position`, or
a bare line number from `q.sourceline`. -/
inductive ErrPos where
  | pair (line col : Nat)
  | lineOnly (line : Nat)
deriving DecidableEq, Repr

/-- The per-document statistics dict `{'tags': ..., 'errors': ...}`. -/
structure Stats where
  tags : Nat
  errors : Nat
deriving DecidableEq, Repr

/-- The XML branch of `validate_file`, over the outcome of the tree
parser collaborator (`ET.fromstring`): an `Except` carrying either the
root node or the positioned `ParseError`.  The schema checker is passed
as the `checker` argument so that its non-invocation on the failure path
is expressible; the source always passes `validate_moodle_mc` (see
`validate_xml_run`).  `len(list(root.iter()))` counts the root plus all
its descendants.  The outer `Except String` is an exception raised by
the checker: the `except ET.ParseError` handler does not catch it, so it
escapes `validate_file`; the handled parse-failure path returns
normally. -/
def validate_xml (parseResult : Except ((Nat × Nat) × String) TreeNode)
    (schema_option : Option String)
    (checker : TreeNode → Except String (List (Nat × String))) :
    Except String (List (ErrPos × String) × Stats) :=
  match parseResult with
  | .ok root =>
      let tags := 1 + (descendants root).length
      match (if schema_option = some "moodlemc" then checker root else Except.ok []) with
      | .ok merrs =>
          let errors := merrs.map (fun e => (ErrPos.lineOnly e.1, e.2))
          Except.ok (errors, { tags := tags, errors := errors.length })
      | .error ex => Except.error ex
  | .error e =>
      Except.ok ([(ErrPos.pair e.1.1 e.1.2, e.2)], { tags := 0, errors := 1 })

/-- The XML branch with the schema checker the source actually calls. -/
def validate_xml_run (parseResult : Except ((Nat × Nat) × String) TreeNode)
    (schema_option : Option String) :
    Except String (List (ErrPos × String) × Stats) :=
  validate_xml parseResult schema_option validate_moodle_mc

/-- Result of `detect_format`. -/
inductive Format where
  | HTML
  | XML
  | Unknown
deriving DecidableEq, Repr

/-- Does `needle` occur as a contiguous substring of `haystack`?  This is
the Python `needle in content` test, over character lists. -/
def containsSub : List Char → List Char → Bool
  | [], needle => needle.isEmpty
  | h :: rest, needle => needle.isPrefixOf (h :: rest) || containsSub rest needle

/-- Character-wise lowercasing of a string (Python `str.lower()`). -/
def lowerStr (s : String) : String :=
  ⟨s.data.map Char.toLower⟩

/-- Embedding of `detect_format`: the file read is the decoded-text
collaborator; the function inspects `f.read(200).lower()` of the decoded
text and keys on the `<html`, `<quiz` and `<question` tokens. -/
def detect_format (text : String) : Format :=
  let content := lowerStr (text.take 200)
  if containsSub content.data "<html".data then Format.HTML
  else if containsSub content.data "<quiz".data || containsSub content.data "<question".data then
    Format.XML
  else Format.Unknown

/-- Number of `Open` events in a stream: what `tags_count` is meant to
count according to the specification. -/
def countOpens : List TagEvent → Nat
  | [] => 0
  | .Open _ _ :: rest => countOpens rest + 1
  | .Close _ _ :: rest => countOpens rest
  | .LexError _ _ :: rest => countOpens rest

/-- Invariant of the open stack: it never holds a void element name. -/
def stackNoVoid (s : ParserState) : Prop :=
  ∀ t ∈ s.tags_stack, t ∉ HTML_VOID_ELEMENTS

instance (s : ParserState) : Decidable (stackNoVoid s) :=
  inferInstanceAs (Decidable (∀ t ∈ s.tags_stack, t ∉ HTML_VOID_ELEMENTS))

/-- Concrete multichoice question node used to exercise the schema
checker: it has a `questiontext` child but no `name` and no `answer`
children. -/
def sampleQuestion : TreeNode :=
  TreeNode.mk "question" [("type", "multichoice")] [TreeNode.mk "questiontext" [] []]

/-- Concrete quiz tree holding `sampleQuestion` as its only question. -/
def sampleQuiz : TreeNode :=
  TreeNode.mk "quiz" [] [sampleQuestion]

/-! Helper lemmas about the two classification tables and the handlers. -/

/-- No raw-content name is a void element. -/
theorem raw_not_void : ∀ t ∈ raw_context_tags, t ∉ HTML_VOID_ELEMENTS := by decide

/-- No void element name is a raw-content name. -/
theorem void_not_raw : ∀ t ∈ HTML_VOID_ELEMENTS, t ∉ raw_context_tags := by decide

theorem handle_starttag_of_raw (s : ParserState) (tag : String)
    (hr : s.is_in_raw_context = true) :
    handle_starttag s tag = { s with tags_count := s.tags_count + 1 } := by
  simp [handle_starttag, hr]

theorem handle_starttag_of_not_raw_not_void (s : ParserState) (tag : String)
    (hr : s.is_in_raw_context = false) (hv : tag ∉ HTML_VOID_ELEMENTS) :
    handle_starttag s tag =
      { s with tags_count := s.tags_count + 1,
               is_in_raw_context := decide (tag ∈ raw_context_tags),
               tags_stack := s.tags_stack ++ [tag] } := by
  by_cases ht : tag ∈ raw_context_tags <;> simp [handle_starttag, hr, hv, ht]

theorem handle_starttag_of_not_raw_void (s : ParserState) (tag : String)
    (hr : s.is_in_raw_context = false) (hv : tag ∈ HTML_VOID_ELEMENTS) :
    handle_starttag s tag = { s with tags_count := s.tags_count + 1 } := by
  have ht : tag ∉ raw_context_tags := fun h => void_not_raw tag hv h
  simp [handle_starttag, hr, hv, ht]

theorem handle_endtag_of_raw_other (s : ParserState) (tag : String) (pos : Pos)
    (hr : s.is_in_raw_context = true) (ht : tag ∉ raw_context_tags) :
    handle_endtag s tag pos = s := by
  simp [handle_endtag, hr, ht]

theorem handle_endtag_of_not_raw_void (s : ParserState) (tag : String) (pos : Pos)
    (hr : s.is_in_raw_context = false) (hv : tag ∈ HTML_VOID_ELEMENTS) :
    handle_endtag s tag pos =
      { s with errors :=
          s.errors ++ [(pos, "Superfluous closing tag for void element: </" ++ tag ++ ">")] } := by
  have ht : tag ∉ raw_context_tags := fun h => void_not_raw tag hv h
  simp [handle_endtag, hr, hv, ht]

theorem handle_endtag_tags_count (s : ParserState) (tag : String) (pos : Pos) :
    (handle_endtag s tag pos).tags_count = s.tags_count := by
  by_cases h1 : s.is_in_raw_context = true <;>
    by_cases ht : tag ∈ raw_context_tags <;>
      by_cases hv : tag ∈ HTML_VOID_ELEMENTS <;>
        rcases hL : s.tags_stack.getLast? with _ | t <;>
          simp [handle_endtag, h1, ht, hv, hL] <;>
            (try (split <;> rfl))

theorem handle_starttag_tags_count (s : ParserState) (tag : String) :
    (handle_starttag s tag).tags_count = s.tags_count + 1 := by
  by_cases h1 : s.is_in_raw_context = true <;>
    by_cases ht : tag ∈ raw_context_tags <;>
      by_cases hv : tag ∈ HTML_VOID_ELEMENTS <;>
        simp [handle_starttag, h1, ht, hv]

theorem handle_starttag_errors (s : ParserState) (tag : String) :
    (handle_starttag s tag).errors = s.errors := by
  by_cases h1 : s.is_in_raw_context = true <;>
    by_cases ht : tag ∈ raw_context_tags <;>
      by_cases hv : tag ∈ HTML_VOID_ELEMENTS <;>
        simp [handle_starttag, h1, ht, hv]

theorem handle_starttag_stack_cases (s : ParserState) (tag : String) :
    (handle_starttag s tag).tags_stack = s.tags_stack ∨
      ((handle_starttag s tag).tags_stack = s.tags_stack ++ [tag] ∧
        tag ∉ HTML_VOID_ELEMENTS) := by
  by_cases h1 : s.is_in_raw_context = true <;>
    by_cases ht : tag ∈ raw_context_tags <;>
      by_cases hv : tag ∈ HTML_VOID_ELEMENTS <;>
        simp [handle_starttag, h1, ht, hv]

theorem handle_endtag_stack_cases (s : ParserState) (tag : String) (pos : Pos) :
    (handle_endtag s tag pos).tags_stack = s.tags_stack ∨
      (handle_endtag s tag pos).tags_stack = s.tags_stack.dropLast := by
  by_cases h1 : s.is_in_raw_context = true <;>
    by_cases ht : tag ∈ raw_context_tags <;>
      by_cases hv : tag ∈ HTML_VOID_ELEMENTS <;>
        rcases hL : s.tags_stack.getLast? with _ | t <;>
          simp [handle_endtag, h1, ht, hv, hL] <;>
            (try (split <;> simp))

theorem feed_cons (s : ParserState) (e : TagEvent) (rest : List TagEvent) :
    feed s (e :: rest) = feed (step s e) rest := rfl

theorem feed_tags_count (events : List TagEvent) (s : ParserState) :
    (feed s events).tags_count = s.tags_count + countOpens events := by
  induction events generalizing s with
  | nil => simp [feed, countOpens]
  | cons e rest ih =>
      rw [feed_cons, ih]
      cases e with
      | Open name pos => simp [step, handle_starttag_tags_count, countOpens]; omega
      | Close name pos => simp [step, handle_endtag_tags_count, countOpens]
      | LexError msg pos => simp [step, handle_error, countOpens]

theorem step_stackNoVoid (s : ParserState) (e : TagEvent)
    (h : stackNoVoid s) : stackNoVoid (step s e) := by
  cases e with
  | Open name pos =>
      rcases handle_starttag_stack_cases s name with hc | ⟨hc, hv⟩ <;>
        intro t ht <;> rw [step] at ht <;> rw [hc] at ht
      · exact h t ht
      · rcases List.mem_append.1 ht with hm | hm
        · exact h t hm
        · rcases List.mem_singleton.1 hm with rfl
          exact hv
  | Close name pos =>
      rcases handle_endtag_stack_cases s name pos with hc | hc <;>
        intro t ht <;> rw [step] at ht <;> rw [hc] at ht
      · exact h t ht
      · exact h t (List.mem_of_mem_dropLast ht)
  | LexError msg pos =>
      intro t ht
      exact h t ht

theorem feed_stackNoVoid (events : List TagEvent) (s : ParserState)
    (h : stackNoVoid s) : stackNoVoid (feed s events) := by
  induction events generalizing s with
  | nil => exact h
  | cons e rest ih => exact ih (step s e) (step_stackNoVoid s e h)

/-! Claim theorems. -/

/-- C1 (counterexample): the claim states that an `Open(name)` with
`inRaw` false and `classify(name) == RawContent` does not push `name`
onto the open stack, and that a raw-content element whose own close tag
is missing yields no unclosed-element diagnostic.  But `"script"` is a
raw-content name, and processing `Open("script")` from the initial state
leaves `"script"` on the stack, so end-of-input accounting reports
`Unclosed tag: script`. -/
theorem c1_counterexample :
    "script" ∈ raw_context_tags ∧
    initState.is_in_raw_context = false ∧
    (handle_starttag initState "script").tags_stack = ["script"] ∧
    (validate_html [TagEvent.Open "script" ⟨1, 1⟩]).1 =
      [((⟨0, 0⟩ : Pos), "Unclosed tag: script")] :=
  ⟨by decide, rfl, rfl, rfl⟩

/-- C1 (amended): when the validator processes an `Open(name)` event with
`inRaw` false and `classify(name) == RawContent`, it enters raw context
and ALSO pushes `name` onto the open stack (raw-content names are never
void, so the push is unconditional); consequently, when a raw-content
element's own close tag is missing, the end-of-input accounting DOES
emit an unclosed-element diagnostic for it, heading the unclosed list. -/
theorem c1_amended (s : ParserState) (tag : String)
    (hr : s.is_in_raw_context = false) (ht : tag ∈ raw_context_tags) :
    (handle_starttag s tag).is_in_raw_context = true ∧
    (handle_starttag s tag).tags_stack = s.tags_stack ++ [tag] ∧
    finalErrors (handle_starttag s tag) =
      s.errors ++ unclosedDiag tag :: s.tags_stack.reverse.map unclosedDiag := by
  have hv : tag ∉ HTML_VOID_ELEMENTS := raw_not_void tag ht
  rw [handle_starttag_of_not_raw_not_void s tag hr hv]
  refine ⟨by simp [ht], rfl, ?_⟩
  simp [finalErrors]

/-- Witness for C1 (amended) at the raw-content name `"script"`. -/
theorem c1_amended_witness :
    initState.is_in_raw_context = false ∧ "script" ∈ raw_context_tags ∧
    ((handle_starttag initState "script").is_in_raw_context = true ∧
     (handle_starttag initState "script").tags_stack = initState.tags_stack ++ ["script"] ∧
     finalErrors (handle_starttag initState "script") =
       initState.errors ++
         unclosedDiag "script" :: initState.tags_stack.reverse.map unclosedDiag) :=
  ⟨rfl, by decide, c1_amended initState "script" rfl (by decide)⟩

/-- C2 (counterexample): the claim states that every `Close(name)` with
`classify(name) == Void` emits exactly one superfluous-void-close
diagnostic regardless of any other state.  But inside a raw-content span
(`inRaw` true) a void close is swallowed by the raw-context early
return: after `Open("script")` then `Close("br")`, the error list is
empty although `"br"` is void. -/
theorem c2_counterexample :
    "br" ∈ HTML_VOID_ELEMENTS ∧
    (feed initState [TagEvent.Open "script" ⟨1, 1⟩]).is_in_raw_context = true ∧
    (feed initState
        [TagEvent.Open "script" ⟨1, 1⟩, TagEvent.Close "br" ⟨1, 9⟩]).errors = [] :=
  ⟨by decide, rfl, rfl⟩

/-- C2 (amended): for every `Close(name)` event with
`classify(name) == Void` processed while `inRaw` is false, the validator
emits exactly one superfluous-void-close diagnostic for that event and
leaves the stack (and the raw flag) unchanged, regardless of whether the
stack is empty or the name was earlier opened as an ordinary element; a
void close seen while `inRaw` is true is ignored entirely. -/
theorem c2_amended (s : ParserState) (tag : String) (pos : Pos)
    (hr : s.is_in_raw_context = false) (hv : tag ∈ HTML_VOID_ELEMENTS) :
    (handle_endtag s tag pos).errors =
      s.errors ++ [(pos, "Superfluous closing tag for void element: </" ++ tag ++ ">")] ∧
    (handle_endtag s tag pos).tags_stack = s.tags_stack ∧
    (handle_endtag s tag pos).is_in_raw_context = s.is_in_raw_context := by
  rw [handle_endtag_of_not_raw_void s tag pos hr hv]
  exact ⟨rfl, rfl, rfl⟩

/-- Witness for C2 (amended): closing `"br"` on the empty initial stack. -/
theorem c2_amended_witness :
    initState.is_in_raw_context = false ∧ "br" ∈ HTML_VOID_ELEMENTS ∧
    ((handle_endtag initState "br" ⟨2, 3⟩).errors =
      initState.errors ++
        [((⟨2, 3⟩ : Pos), "Superfluous closing tag for void element: </" ++ "br" ++ ">")] ∧
     (handle_endtag initState "br" ⟨2, 3⟩).tags_stack = initState.tags_stack ∧
     (handle_endtag initState "br" ⟨2, 3⟩).is_in_raw_context =
       initState.is_in_raw_context) :=
  ⟨rfl, by decide, c2_amended initState "br" ⟨2, 3⟩ rfl (by decide)⟩

/-- C3: with a non-empty stack, a `Close(name)` of an ordinary name
(`inRaw` false, not void, not raw-content) that differs from the stack
top emits exactly one mismatched-close diagnostic naming both the
expected (stack top) and actual tag, leaves the state otherwise exactly
unchanged, and a subsequent close matching the true stack top still pops
it. -/
theorem c3_mismatched_close (s : ParserState) (tag top : String)
    (rest : List String) (pos pos2 : Pos)
    (hr : s.is_in_raw_context = false)
    (hstack : s.tags_stack = rest ++ [top])
    (hv : tag ∉ HTML_VOID_ELEMENTS)
    (hrt : tag ∉ raw_context_tags)
    (hne : top ≠ tag) :
    handle_endtag s tag pos =
      { s with errors := s.errors ++
          [(pos, "Mismatched closing tag: expected </" ++ top ++ "> but got </" ++ tag ++ ">")] } ∧
    (top ∉ HTML_VOID_ELEMENTS →
      (handle_endtag (handle_endtag s tag pos) top pos2).tags_stack = rest) := by
  have h1 : handle_endtag s tag pos =
      { s with errors := s.errors ++
          [(pos, "Mismatched closing tag: expected </" ++ top ++ "> but got </" ++ tag ++ ">")] } := by
    simp [handle_endtag, hr, hrt, hv, hstack, hne]
  refine ⟨h1, fun hvt => ?_⟩
  rw [h1]
  by_cases htr : top ∈ raw_context_tags <;>
    simp [handle_endtag, hr, htr, hvt, hstack]

/-- Witness for C3: closing `div` over the stack `[div, span]` (top
`span`), then closing `span`. -/
theorem c3_witness :
    (feed initState
        [TagEvent.Open "div" ⟨1, 1⟩, TagEvent.Open "span" ⟨1, 6⟩]).is_in_raw_context
      = false ∧
    (feed initState
        [TagEvent.Open "div" ⟨1, 1⟩, TagEvent.Open "span" ⟨1, 6⟩]).tags_stack
      = ["div"] ++ ["span"] ∧
    (handle_endtag
        (feed initState [TagEvent.Open "div" ⟨1, 1⟩, TagEvent.Open "span" ⟨1, 6⟩])
        "div" ⟨1, 16⟩ =
      { feed initState [TagEvent.Open "div" ⟨1, 1⟩, TagEvent.Open "span" ⟨1, 6⟩] with
          errors := (feed initState
              [TagEvent.Open "div" ⟨1, 1⟩, TagEvent.Open "span" ⟨1, 6⟩]).errors ++
            [((⟨1, 16⟩ : Pos),
              "Mismatched closing tag: expected </" ++ "span" ++ "> but got </" ++ "div" ++ ">")] } ∧
     ("span" ∉ HTML_VOID_ELEMENTS →
       (handle_endtag
           (handle_endtag
             (feed initState [TagEvent.Open "div" ⟨1, 1⟩, TagEvent.Open "span" ⟨1, 6⟩])
             "div" ⟨1, 16⟩)
           "span" ⟨1, 23⟩).tags_stack = ["div"])) :=
  ⟨rfl, rfl,
    c3_mismatched_close _ "div" "span" ["div"] ⟨1, 16⟩ ⟨1, 23⟩ rfl rfl
      (by decide) (by decide) (by decide)⟩

/-- C4: while `inRaw` is true, any `Open` event and any `Close` event of
a name that is not a raw-content name leave the error list and the open
stack untouched (the close leaves the whole state untouched): tags
strictly inside a raw-content span contribute zero diagnostics. -/
theorem c4_raw_span_opaque (s : ParserState) (name name2 : String) (pos : Pos)
    (hr : s.is_in_raw_context = true) (h2 : name2 ∉ raw_context_tags) :
    (handle_starttag s name).errors = s.errors ∧
    (handle_starttag s name).tags_stack = s.tags_stack ∧
    handle_endtag s name2 pos = s := by
  refine ⟨handle_starttag_errors s name, ?_,
    handle_endtag_of_raw_other s name2 pos hr h2⟩
  rw [handle_starttag_of_raw s name hr]

/-- Witness for C4: an unmatched `Open("b")` and a stray `Close("em")`
inside a `script` raw span. -/
theorem c4_witness :
    (feed initState [TagEvent.Open "script" ⟨1, 1⟩]).is_in_raw_context = true ∧
    "em" ∉ raw_context_tags ∧
    ((handle_starttag (feed initState [TagEvent.Open "script" ⟨1, 1⟩]) "b").errors =
        (feed initState [TagEvent.Open "script" ⟨1, 1⟩]).errors ∧
     (handle_starttag (feed initState [TagEvent.Open "script" ⟨1, 1⟩]) "b").tags_stack =
        (feed initState [TagEvent.Open "script" ⟨1, 1⟩]).tags_stack ∧
     handle_endtag (feed initState [TagEvent.Open "script" ⟨1, 1⟩]) "em" ⟨1, 20⟩ =
        feed initState [TagEvent.Open "script" ⟨1, 1⟩]) :=
  ⟨rfl, by decide,
    c4_raw_span_opaque (feed initState [TagEvent.Open "script" ⟨1, 1⟩]) "b" "em"
      ⟨1, 20⟩ rfl (by decide)⟩

/-- C5: end-of-input accounting appends exactly one unclosed-element
diagnostic per name remaining on the stack, each at the sentinel
position `(0, 0)`, after all in-document diagnostics, ordered from
most-recently-opened to least-recently-opened: the element pushed by the
latest (ordinary, non-raw-span) `Open` heads the unclosed suffix. -/
theorem c5_unclosed_accounting (s : ParserState) (tag : String)
    (hr : s.is_in_raw_context = false)
    (hv : tag ∉ HTML_VOID_ELEMENTS) :
    finalErrors s = s.errors ++ s.tags_stack.reverse.map unclosedDiag ∧
    (∀ d ∈ s.tags_stack.reverse.map unclosedDiag, d.1 = (⟨0, 0⟩ : Pos)) ∧
    (finalErrors s).length = s.errors.length + s.tags_stack.length ∧
    finalErrors (handle_starttag s tag) =
      s.errors ++ unclosedDiag tag :: s.tags_stack.reverse.map unclosedDiag := by
  refine ⟨rfl, ?_, by simp [finalErrors], ?_⟩
  · intro d hd
    rcases List.mem_map.1 hd with ⟨t, _, rfl⟩
    rfl
  · rw [handle_starttag_of_not_raw_not_void s tag hr hv]
    simp [finalErrors]

/-- Witness for C5 at the state reached by `Open(div); Open(span)`. -/
theorem c5_witness :
    (feed initState
        [TagEvent.Open "div" ⟨1, 1⟩, TagEvent.Open "span" ⟨1, 6⟩]).is_in_raw_context
      = false ∧
    "p" ∉ HTML_VOID_ELEMENTS ∧
    finalErrors (handle_starttag
        (feed initState [TagEvent.Open "div" ⟨1, 1⟩, TagEvent.Open "span" ⟨1, 6⟩]) "p") =
      (feed initState [TagEvent.Open "div" ⟨1, 1⟩, TagEvent.Open "span" ⟨1, 6⟩]).errors ++
        unclosedDiag "p" ::
          (feed initState
              [TagEvent.Open "div" ⟨1, 1⟩,
               TagEvent.Open "span" ⟨1, 6⟩]).tags_stack.reverse.map unclosedDiag :=
  ⟨rfl, by decide,
    (c5_unclosed_accounting
        (feed initState [TagEvent.Open "div" ⟨1, 1⟩, TagEvent.Open "span" ⟨1, 6⟩]) "p"
        rfl (by decide)).2.2.2⟩

/-- C6: every `Open` event increments `tags_count` by exactly one (also
inside raw spans and for void or raw-content names), `Close` and
`LexError` events never change it, and `validate_html` returns it as the
total number of `Open` events of the input. -/
theorem c6_tag_count (events : List TagEvent) :
    (∀ (s : ParserState) (name : String),
        (handle_starttag s name).tags_count = s.tags_count + 1) ∧
    (∀ (s : ParserState) (name : String) (pos : Pos),
        (handle_endtag s name pos).tags_count = s.tags_count) ∧
    (∀ (s : ParserState) (msg : String) (pos : Pos),
        (handle_error s msg pos).tags_count = s.tags_count) ∧
    (validate_html events).2 = countOpens events := by
  refine ⟨handle_starttag_tags_count, handle_endtag_tags_count, fun _ _ _ => rfl, ?_⟩
  have h := feed_tags_count events initState
  simpa [validate_html, initState] using h

/-- C7 (code bug): the claim — and the spec — expect a multichoice
question lacking a `name` child and all `answer` children to yield
exactly two missing-required-child diagnostics positioned at the node's
source position.  But the tree parser is stdlib
`xml.etree.ElementTree`, whose elements define no `sourceline`
attribute, so the first triggered `errors.append((q.sourceline, ...))`
raises `AttributeError` instead: on `sampleQuiz` (its sole question
lacks `name` and `answer` children) `validate_moodle_mc` raises and
produces no diagnostics, and the exception escapes the XML branch of
`validate_file`, whose handler catches only `ET.ParseError`. -/
theorem c7_sourceline_crash :
    hasDirectChild sampleQuestion "name" = false ∧
    hasDirectChild sampleQuestion "questiontext" = true ∧
    (sampleQuestion.children.filter (fun c => c.tag == "answer")).isEmpty = true ∧
    mcQuestions sampleQuiz = [sampleQuestion] ∧
    validate_moodle_mc sampleQuiz = Except.error sourcelineAttributeError ∧
    validate_xml_run (Except.ok sampleQuiz) (some "moodlemc") =
      Except.error sourcelineAttributeError :=
  ⟨rfl, rfl, rfl, rfl, rfl, rfl⟩

/-- C8: when the tree parser fails, the XML branch produces exactly one
diagnostic carrying the parser's reported `(line, column)` position and
message, returns `errors = 1` and `tags = 0`, and its result does not
depend on the schema checker at all (it coincides with the run using the
real `validate_moodle_mc`), so the Schema Rule Checker is never
invoked. -/
theorem c8_parse_failure (line col : Nat) (msg : String)
    (schema_option : Option String)
    (checker : TreeNode → Except String (List (Nat × String))) :
    validate_xml (Except.error ((line, col), msg)) schema_option checker =
      Except.ok ([(ErrPos.pair line col, msg)], { tags := 0, errors := 1 }) ∧
    validate_xml (Except.error ((line, col), msg)) schema_option checker =
      validate_xml_run (Except.error ((line, col), msg)) schema_option :=
  ⟨rfl, rfl⟩

/-- C9: the open stack never contains a void element name: the property
is preserved by every single event step, and holds in every state
reachable from the initial (empty-stack) state by any event stream. -/
theorem c9_stack_never_void (s : ParserState) (e : TagEvent)
    (events : List TagEvent) (h : stackNoVoid s) :
    stackNoVoid (step s e) ∧ stackNoVoid (feed initState events) :=
  ⟨step_stackNoVoid s e h,
   feed_stackNoVoid events initState (by simp [stackNoVoid, initState])⟩

/-- Witness for C9: one step from the initial state, and a run opening a
void and an ordinary element. -/
theorem c9_witness :
    stackNoVoid (step initState (TagEvent.Open "br" ⟨1, 1⟩)) ∧
    stackNoVoid (feed initState
      [TagEvent.Open "br" ⟨1, 1⟩, TagEvent.Open "div" ⟨1, 5⟩]) :=
  c9_stack_never_void initState (TagEvent.Open "br" ⟨1, 1⟩)
    [TagEvent.Open "br" ⟨1, 1⟩, TagEvent.Open "div" ⟨1, 5⟩]
    (by simp [stackNoVoid, initState])

/-- C10: on the lowercased 200-character prefix of the decoded text,
`detect_format` answers `HTML` whenever the prefix contains `<html`
(HTML takes precedence even when `<quiz` or `<question` also occur),
`XML` when it contains `<quiz` or `<question` but not `<html`, and
`Unknown` otherwise. -/
theorem c10_detect_format (text : String) :
    (containsSub (lowerStr (text.take 200)).data "<html".data = true →
      detect_format text = Format.HTML) ∧
    (containsSub (lowerStr (text.take 200)).data "<html".data = false →
      (containsSub (lowerStr (text.take 200)).data "<quiz".data ||
        containsSub (lowerStr (text.take 200)).data "<question".data) = true →
      detect_format text = Format.XML) ∧
    (containsSub (lowerStr (text.take 200)).data "<html".data = false →
      containsSub (lowerStr (text.take 200)).data "<quiz".data = false →
      containsSub (lowerStr (text.take 200)).data "<question".data = false →
      detect_format text = Format.Unknown) := by
  refine ⟨fun h1 => ?_, fun h1 h2 => ?_, fun h1 h2 h3 => ?_⟩ <;>
    simp [detect_format, h1, *]

set_option maxRecDepth 4000 in
/-- Witness for C10 on three concrete prefixes, the first holding both
`<html` and `<quiz` (HTML precedence). -/
theorem c10_witness :
    detect_format "<HTML><quiz" = Format.HTML ∧
    detect_format "<quiz version" = Format.XML ∧
    detect_format "plain text" = Format.Unknown :=
  ⟨(c10_detect_format "<HTML><quiz").1 (by decide),
   (c10_detect_format "<quiz version").2.1 (by decide) (by decide),
   (c10_detect_format "plain text").2.2 (by decide) (by decide) (by decide)⟩

end Mlcheck
